import Mathlib

/-!
Verification of the scope-detection and reference-resolution layer of the
slack-mcp-server repository, as a shallow embedding of the Go source
(`pkg/handler/attachments.go`, which also carries the `provider` scope
detector, and `docs/01-authentication-setup.md`).

Strings in the embedding are Lean `String`s; Go's `strings.Contains` and
`strings.HasPrefix` are modelled by executable char-list scans below.
Go maps with zero-value reads (`map[Scope]bool`) are modelled by
`Scope → Option Bool` with a `getD false` read, matching the Go semantics
that a missing key reads as `false` while `setScope` inserts a key.
-/

namespace SlackMCP

/-- Boolean prefix test on char lists; `chPrefixOf pat s` is true when
`pat` is an initial segment of `s`. -/
def chPrefixOf : List Char → List Char → Bool
  | [], _ => true
  | _ :: _, [] => false
  | a :: as, b :: bs => a == b && chPrefixOf as bs

/-- Boolean infix test on char lists; scans every suffix of `s` for `pat`. -/
def chInfixOf (pat : List Char) : List Char → Bool
  | [] => chPrefixOf pat []
  | c :: tl => chPrefixOf pat (c :: tl) || chInfixOf pat tl

/-- Model of Go `strings.Contains s pat`. -/
def strContains (s pat : String) : Bool :=
  chInfixOf pat.toList s.toList

/-- Model of Go `strings.HasPrefix s pre`. -/
def strHasPrefix (s pre : String) : Bool :=
  chPrefixOf pre.toList s.toList

/-- Slack OAuth scopes, from the `Scope` constants of the provider source
(lines 263–277 of `attachments.go`). -/
inductive Scope
  | channelsRead
  | channelsHistory
  | groupsRead
  | groupsHistory
  | imRead
  | imHistory
  | imWrite
  | mpimRead
  | mpimHistory
  | mpimWrite
  | usersRead
  | chatWrite
  | searchRead
  deriving DecidableEq

/-- The result of one remote call made by a probe: `none` is a successful
call, `some e` a call that failed with error text `e` (what Go's
`err.Error()` yields). One field per remote call issued by the six test
functions. -/
structure ProbeOutcomes where
  getConversationsPublic : Option String
  getConversationsPrivate : Option String
  getConversationsIM : Option String
  getConversationsMPIM : Option String
  getUsers : Option String
  searchMessages : Option String

/-- Embedding of `isMissingScopeError`: `nil` errors are not missing-scope;
otherwise the error text is scanned for the three permission-denial
substrings. -/
def isMissingScopeError (err : Option String) : Bool :=
  match err with
  | none => false
  | some errStr =>
      strContains errStr "missing_scope" ||
      strContains errStr "not_allowed" ||
      strContains errStr "access_denied"

/-- Embedding of `testChannelsRead`: probes `GetConversationsContext`
with type `public_channel` and returns `!isMissingScopeError err`. -/
def testChannelsRead (o : ProbeOutcomes) : Bool :=
  !(isMissingScopeError o.getConversationsPublic)

/-- Embedding of `testGroupsRead` (type `private_channel`). -/
def testGroupsRead (o : ProbeOutcomes) : Bool :=
  !(isMissingScopeError o.getConversationsPrivate)

/-- Embedding of `testIMRead` (type `im`). -/
def testIMRead (o : ProbeOutcomes) : Bool :=
  !(isMissingScopeError o.getConversationsIM)

/-- Embedding of `testMPIMRead` (type `mpim`). -/
def testMPIMRead (o : ProbeOutcomes) : Bool :=
  !(isMissingScopeError o.getConversationsMPIM)

/-- Embedding of `testUsersRead` (probes `GetUsersContext`). -/
def testUsersRead (o : ProbeOutcomes) : Bool :=
  !(isMissingScopeError o.getUsers)

/-- Embedding of `testSearchRead` (probes `SearchContext`). -/
def testSearchRead (o : ProbeOutcomes) : Bool :=
  !(isMissingScopeError o.searchMessages)

/-- The detector state: the `detected map[Scope]bool`. A key absent from
the Go map is `none` here; `setScope` writes `some`. -/
structure ScopeDetector where
  detected : Scope → Option Bool

/-- Embedding of `NewScopeDetector`: an empty `detected` map. -/
def NewScopeDetector : ScopeDetector :=
  ⟨fun _ => none⟩

/-- Embedding of `setScope`: inserts `scope ↦ available` into the map.
The Go mutex only serializes the concurrent writers; each probe writes a
distinct key, so insertion order does not affect the final map. -/
def setScope (sd : ScopeDetector) (scope : Scope) (available : Bool) :
    ScopeDetector :=
  ⟨fun s => if s = scope then some available else sd.detected s⟩

/-- Go map read `sd.detected[scope]` with the zero-value default `false`. -/
def getScope (sd : ScopeDetector) (scope : Scope) : Bool :=
  (sd.detected scope).getD false

/-- Embedding of `inferHistoryScopes`: for each read scope present as
`true` in the map, the paired history scope is set to `true`; nothing
else is written. The Go code mutates the map in place; here the state is
threaded through the four conditional updates in source order. -/
def inferHistoryScopes (sd : ScopeDetector) : ScopeDetector :=
  let sd1 := if getScope sd .channelsRead then
    setScope sd .channelsHistory true else sd
  let sd2 := if getScope sd1 .groupsRead then
    setScope sd1 .groupsHistory true else sd1
  let sd3 := if getScope sd2 .imRead then
    setScope sd2 .imHistory true else sd2
  if getScope sd3 .mpimRead then setScope sd3 .mpimHistory true else sd3

/-- The `scopeTests` table of `DetectScopes`, pairing each directly-tested
scope with its test function, in source order. -/
def scopeTests : List (Scope × (ProbeOutcomes → Bool)) :=
  [(.channelsRead, testChannelsRead),
   (.groupsRead, testGroupsRead),
   (.imRead, testIMRead),
   (.mpimRead, testMPIMRead),
   (.usersRead, testUsersRead),
   (.searchRead, testSearchRead)]

/-- The fan-out-and-join phase of `DetectScopes`: every entry of
`scopeTests` runs its test and records the result with `setScope`. The Go
goroutines write six distinct keys under a mutex and `wg.Wait()` joins
them, so the final map is the same for every interleaving; the fold
realizes it in list order. -/
def runProbes (sd : ScopeDetector) (o : ProbeOutcomes) : ScopeDetector :=
  scopeTests.foldl (fun acc st => setScope acc st.1 (st.2 o)) sd

/-- Embedding of `DetectScopes`: run all probes, join, then infer the
history scopes. The Go function returns nothing and cannot fail; the
embedding is a total function into the new detector state. -/
def DetectScopes (sd : ScopeDetector) (o : ProbeOutcomes) : ScopeDetector :=
  inferHistoryScopes (runProbes sd o)

/-- Embedding of `HasScope`: map read with zero-value default. -/
def HasScope (sd : ScopeDetector) (scope : Scope) : Bool :=
  (sd.detected scope).getD false

/-- Embedding of `HasAnyReadScope`. -/
def HasAnyReadScope (sd : ScopeDetector) : Bool :=
  HasScope sd .channelsRead ||
  HasScope sd .groupsRead ||
  HasScope sd .imRead ||
  HasScope sd .mpimRead

/-- Embedding of `HasAnyHistoryScope`. -/
def HasAnyHistoryScope (sd : ScopeDetector) : Bool :=
  HasScope sd .channelsHistory ||
  HasScope sd .groupsHistory ||
  HasScope sd .imHistory ||
  HasScope sd .mpimHistory

/-- Embedding of `AvailableChannelTypes`: the four appends in source
order, each guarded by its read scope. -/
def AvailableChannelTypes (sd : ScopeDetector) : List String :=
  (if HasScope sd .channelsRead then ["public_channel"] else []) ++
  (if HasScope sd .groupsRead then ["private_channel"] else []) ++
  (if HasScope sd .imRead then ["im"] else []) ++
  (if HasScope sd .mpimRead then ["mpim"] else [])

/-- Embedding of the channel-reference resolution step of
`MessagesWithAttachmentsHandler` (lines 72–80): a `channel_id` starting
with `#` or `@` is looked up in `ChannelsInv`; a miss is the error
`channel %q not found`, a hit is replaced by `Channels[chn].ID`; any
other `channel_id` passes through unchanged. `inv` is the
`ChannelsInv` reverse map (name to map key, `none` on a missing key) and
`channels` reads `Channels[chn].ID`. -/
def resolveChannelID (inv : String → Option String)
    (channels : String → String) (channelID : String) : Except String String :=
  if strHasPrefix channelID "#" || strHasPrefix channelID "@" then
    match inv channelID with
    | none => Except.error ("channel \"" ++ channelID ++ "\" not found")
    | some chn => Except.ok (channels chn)
  else
    Except.ok channelID

/-- The selected authentication mode, tagged by credential kind. -/
inductive Credential
  | user (token : String)
  | bot (token : String)
  | sessionPair (xoxc xoxd : String)
  deriving DecidableEq

/-- Startup credential failures. -/
inductive CredentialError
  | noCredential
  | incompletePair
  deriving DecidableEq

/-- Operator-supplied credential material: the named configuration values
`SLACK_MCP_XOXP_TOKEN`, `SLACK_MCP_XOXB_TOKEN`, `SLACK_MCP_XOXC_TOKEN`
and `SLACK_MCP_XOXD_TOKEN`. Named values carry no presentation order. -/
structure CredentialSources where
  userToken : Option String
  botToken : Option String
  xoxcToken : Option String
  xoxdToken : Option String

/-- Modelled from the spec: the repository's credential-resolution code
(CredentialResolver, spec section 4.1) is not under `src/`; only the
documentation note `docs/01-authentication-setup.md` line 15 records its
behavior ("If multiple are provided, priority is xoxp > xoxb >
xoxc/xoxd"). Resolution prefers the user token, then the bot token, then
a complete session pair; no material is `NoCredential` and a partial
pair is `IncompletePair`. -/
def resolveCredential (s : CredentialSources) :
    Except CredentialError Credential :=
  match s.userToken with
  | some t => Except.ok (Credential.user t)
  | none =>
    match s.botToken with
    | some t => Except.ok (Credential.bot t)
    | none =>
      match s.xoxcToken, s.xoxdToken with
      | some c, some d => Except.ok (Credential.sessionPair c d)
      | none, none => Except.error CredentialError.noCredential
      | _, _ => Except.error CredentialError.incompletePair

/-- The entity-type order the spec fixes for `AvailableEntityTypes`, each
advertised type paired with the read scope that gates it. Spec-side
definition; compared against `AvailableChannelTypes` in C4. -/
def specChannelTypeOrder : List (String × Scope) :=
  [("public_channel", Scope.channelsRead),
   ("private_channel", Scope.groupsRead),
   ("im", Scope.imRead),
   ("mpim", Scope.mpimRead)]

/-- Probe outcomes in which every remote call fails with Go's context
cancellation error text. -/
def cancelOutcomes : ProbeOutcomes :=
  ⟨some "context canceled", some "context canceled", some "context canceled",
   some "context canceled", some "context canceled", some "context canceled"⟩

/-- Probe outcomes of the spec's scenario: the two channel-listing calls
succeed, the remaining four calls fail with a `missing_scope` error. -/
def scenarioOutcomes : ProbeOutcomes :=
  ⟨none, none, some "missing_scope", some "missing_scope",
   some "missing_scope", some "missing_scope"⟩

end SlackMCP

namespace SlackMCP

/-- Helper: after detection the map entry for channels:read is exactly the
probe result. -/
lemma detected_channelsRead (o : ProbeOutcomes) :
    (DetectScopes NewScopeDetector o).detected .channelsRead
      = some (testChannelsRead o) := by
  cases h1 : testChannelsRead o <;> cases h2 : testGroupsRead o <;>
    cases h3 : testIMRead o <;> cases h4 : testMPIMRead o <;>
    simp [DetectScopes, runProbes, scopeTests, inferHistoryScopes,
      setScope, getScope, NewScopeDetector, h1, h2, h3, h4]

/-- Helper: after detection the map entry for groups:read is exactly the
probe result. -/
lemma detected_groupsRead (o : ProbeOutcomes) :
    (DetectScopes NewScopeDetector o).detected .groupsRead
      = some (testGroupsRead o) := by
  cases h1 : testChannelsRead o <;> cases h2 : testGroupsRead o <;>
    cases h3 : testIMRead o <;> cases h4 : testMPIMRead o <;>
    simp [DetectScopes, runProbes, scopeTests, inferHistoryScopes,
      setScope, getScope, NewScopeDetector, h1, h2, h3, h4]

/-- Helper: after detection the map entry for im:read is exactly the
probe result. -/
lemma detected_imRead (o : ProbeOutcomes) :
    (DetectScopes NewScopeDetector o).detected .imRead
      = some (testIMRead o) := by
  cases h1 : testChannelsRead o <;> cases h2 : testGroupsRead o <;>
    cases h3 : testIMRead o <;> cases h4 : testMPIMRead o <;>
    simp [DetectScopes, runProbes, scopeTests, inferHistoryScopes,
      setScope, getScope, NewScopeDetector, h1, h2, h3, h4]

/-- Helper: after detection the map entry for mpim:read is exactly the
probe result. -/
lemma detected_mpimRead (o : ProbeOutcomes) :
    (DetectScopes NewScopeDetector o).detected .mpimRead
      = some (testMPIMRead o) := by
  cases h1 : testChannelsRead o <;> cases h2 : testGroupsRead o <;>
    cases h3 : testIMRead o <;> cases h4 : testMPIMRead o <;>
    simp [DetectScopes, runProbes, scopeTests, inferHistoryScopes,
      setScope, getScope, NewScopeDetector, h1, h2, h3, h4]

/-- Helper: after detection the map entry for users:read is exactly the
probe result. -/
lemma detected_usersRead (o : ProbeOutcomes) :
    (DetectScopes NewScopeDetector o).detected .usersRead
      = some (testUsersRead o) := by
  cases h1 : testChannelsRead o <;> cases h2 : testGroupsRead o <;>
    cases h3 : testIMRead o <;> cases h4 : testMPIMRead o <;>
    simp [DetectScopes, runProbes, scopeTests, inferHistoryScopes,
      setScope, getScope, NewScopeDetector, h1, h2, h3, h4]

/-- Helper: after detection the map entry for search:read is exactly the
probe result. -/
lemma detected_searchRead (o : ProbeOutcomes) :
    (DetectScopes NewScopeDetector o).detected .searchRead
      = some (testSearchRead o) := by
  cases h1 : testChannelsRead o <;> cases h2 : testGroupsRead o <;>
    cases h3 : testIMRead o <;> cases h4 : testMPIMRead o <;>
    simp [DetectScopes, runProbes, scopeTests, inferHistoryScopes,
      setScope, getScope, NewScopeDetector, h1, h2, h3, h4]

/-- Helper: channels:history is written only when channels:read probed
true; otherwise the key stays absent. -/
lemma detected_channelsHistory (o : ProbeOutcomes) :
    (DetectScopes NewScopeDetector o).detected .channelsHistory
      = (if testChannelsRead o then some true else none) := by
  cases h1 : testChannelsRead o <;> cases h2 : testGroupsRead o <;>
    cases h3 : testIMRead o <;> cases h4 : testMPIMRead o <;>
    simp [DetectScopes, runProbes, scopeTests, inferHistoryScopes,
      setScope, getScope, NewScopeDetector, h1, h2, h3, h4]

/-- Helper: groups:history is written only when groups:read probed true. -/
lemma detected_groupsHistory (o : ProbeOutcomes) :
    (DetectScopes NewScopeDetector o).detected .groupsHistory
      = (if testGroupsRead o then some true else none) := by
  cases h1 : testChannelsRead o <;> cases h2 : testGroupsRead o <;>
    cases h3 : testIMRead o <;> cases h4 : testMPIMRead o <;>
    simp [DetectScopes, runProbes, scopeTests, inferHistoryScopes,
      setScope, getScope, NewScopeDetector, h1, h2, h3, h4]

/-- Helper: im:history is written only when im:read probed true. -/
lemma detected_imHistory (o : ProbeOutcomes) :
    (DetectScopes NewScopeDetector o).detected .imHistory
      = (if testIMRead o then some true else none) := by
  cases h1 : testChannelsRead o <;> cases h2 : testGroupsRead o <;>
    cases h3 : testIMRead o <;> cases h4 : testMPIMRead o <;>
    simp [DetectScopes, runProbes, scopeTests, inferHistoryScopes,
      setScope, getScope, NewScopeDetector, h1, h2, h3, h4]

/-- Helper: mpim:history is written only when mpim:read probed true. -/
lemma detected_mpimHistory (o : ProbeOutcomes) :
    (DetectScopes NewScopeDetector o).detected .mpimHistory
      = (if testMPIMRead o then some true else none) := by
  cases h1 : testChannelsRead o <;> cases h2 : testGroupsRead o <;>
    cases h3 : testIMRead o <;> cases h4 : testMPIMRead o <;>
    simp [DetectScopes, runProbes, scopeTests, inferHistoryScopes,
      setScope, getScope, NewScopeDetector, h1, h2, h3, h4]

/-- Helper: the write scopes are never written by detection. -/
lemma detected_writes_none (o : ProbeOutcomes) :
    (DetectScopes NewScopeDetector o).detected .chatWrite = none ∧
    (DetectScopes NewScopeDetector o).detected .imWrite = none ∧
    (DetectScopes NewScopeDetector o).detected .mpimWrite = none := by
  cases h1 : testChannelsRead o <;> cases h2 : testGroupsRead o <;>
    cases h3 : testIMRead o <;> cases h4 : testMPIMRead o <;>
    simp [DetectScopes, runProbes, scopeTests, inferHistoryScopes,
      setScope, getScope, NewScopeDetector, h1, h2, h3, h4]

/-- Helper: `HasScope` of a read scope after detection is the probe
result. -/
lemma hasScope_channelsRead (o : ProbeOutcomes) :
    HasScope (DetectScopes NewScopeDetector o) .channelsRead
      = testChannelsRead o := by
  rw [HasScope, detected_channelsRead]; rfl

/-- Helper: `HasScope` of groups:read after detection. -/
lemma hasScope_groupsRead (o : ProbeOutcomes) :
    HasScope (DetectScopes NewScopeDetector o) .groupsRead
      = testGroupsRead o := by
  rw [HasScope, detected_groupsRead]; rfl

/-- Helper: `HasScope` of im:read after detection. -/
lemma hasScope_imRead (o : ProbeOutcomes) :
    HasScope (DetectScopes NewScopeDetector o) .imRead = testIMRead o := by
  rw [HasScope, detected_imRead]; rfl

/-- Helper: `HasScope` of mpim:read after detection. -/
lemma hasScope_mpimRead (o : ProbeOutcomes) :
    HasScope (DetectScopes NewScopeDetector o) .mpimRead
      = testMPIMRead o := by
  rw [HasScope, detected_mpimRead]; rfl

/-- Helper: `HasScope` of users:read after detection. -/
lemma hasScope_usersRead (o : ProbeOutcomes) :
    HasScope (DetectScopes NewScopeDetector o) .usersRead
      = testUsersRead o := by
  rw [HasScope, detected_usersRead]; rfl

/-- Helper: `HasScope` of search:read after detection. -/
lemma hasScope_searchRead (o : ProbeOutcomes) :
    HasScope (DetectScopes NewScopeDetector o) .searchRead
      = testSearchRead o := by
  rw [HasScope, detected_searchRead]; rfl

/-- Helper: `HasScope` of a history scope after detection equals the
paired read probe result. -/
lemma hasScope_channelsHistory (o : ProbeOutcomes) :
    HasScope (DetectScopes NewScopeDetector o) .channelsHistory
      = testChannelsRead o := by
  rw [HasScope, detected_channelsHistory]
  cases testChannelsRead o <;> rfl

/-- Helper: `HasScope` of groups:history after detection. -/
lemma hasScope_groupsHistory (o : ProbeOutcomes) :
    HasScope (DetectScopes NewScopeDetector o) .groupsHistory
      = testGroupsRead o := by
  rw [HasScope, detected_groupsHistory]
  cases testGroupsRead o <;> rfl

/-- Helper: `HasScope` of im:history after detection. -/
lemma hasScope_imHistory (o : ProbeOutcomes) :
    HasScope (DetectScopes NewScopeDetector o) .imHistory
      = testIMRead o := by
  rw [HasScope, detected_imHistory]
  cases testIMRead o <;> rfl

/-- Helper: `HasScope` of mpim:history after detection. -/
lemma hasScope_mpimHistory (o : ProbeOutcomes) :
    HasScope (DetectScopes NewScopeDetector o) .mpimHistory
      = testMPIMRead o := by
  rw [HasScope, detected_mpimHistory]
  cases testMPIMRead o <;> rfl

/-- Helper: `HasScope` of chat:write is false after detection. -/
lemma hasScope_chatWrite (o : ProbeOutcomes) :
    HasScope (DetectScopes NewScopeDetector o) .chatWrite = false := by
  rw [HasScope, (detected_writes_none o).1]; rfl

/-- Helper: `HasScope` of im:write is false after detection. -/
lemma hasScope_imWrite (o : ProbeOutcomes) :
    HasScope (DetectScopes NewScopeDetector o) .imWrite = false := by
  rw [HasScope, (detected_writes_none o).2.1]; rfl

/-- Helper: `HasScope` of mpim:write is false after detection. -/
lemma hasScope_mpimWrite (o : ProbeOutcomes) :
    HasScope (DetectScopes NewScopeDetector o) .mpimWrite = false := by
  rw [HasScope, (detected_writes_none o).2.2]; rfl

/-- C1: for every directly-probed permission, the finalized capability set
records the permission as available exactly when the remote call's error
is not classified as a permission-denial signal by
`isMissingScopeError`; in particular a successful call (`none`) is never
classified as a denial, so it is recorded as available. -/
theorem probe_records_available_iff_not_denial (o : ProbeOutcomes) :
    HasScope (DetectScopes NewScopeDetector o) .channelsRead
        = !(isMissingScopeError o.getConversationsPublic) ∧
    HasScope (DetectScopes NewScopeDetector o) .groupsRead
        = !(isMissingScopeError o.getConversationsPrivate) ∧
    HasScope (DetectScopes NewScopeDetector o) .imRead
        = !(isMissingScopeError o.getConversationsIM) ∧
    HasScope (DetectScopes NewScopeDetector o) .mpimRead
        = !(isMissingScopeError o.getConversationsMPIM) ∧
    HasScope (DetectScopes NewScopeDetector o) .usersRead
        = !(isMissingScopeError o.getUsers) ∧
    HasScope (DetectScopes NewScopeDetector o) .searchRead
        = !(isMissingScopeError o.searchMessages) ∧
    isMissingScopeError none = false :=
  ⟨hasScope_channelsRead o, hasScope_groupsRead o, hasScope_imRead o,
   hasScope_mpimRead o, hasScope_usersRead o, hasScope_searchRead o, rfl⟩

/-- C2: after detection completes from the fresh detector, the history
scope of each history/read pair (channels, groups, im, mpim) holds
exactly when its paired read scope does. -/
theorem history_scope_iff_read_scope (o : ProbeOutcomes) :
    HasScope (DetectScopes NewScopeDetector o) .channelsHistory
        = HasScope (DetectScopes NewScopeDetector o) .channelsRead ∧
    HasScope (DetectScopes NewScopeDetector o) .groupsHistory
        = HasScope (DetectScopes NewScopeDetector o) .groupsRead ∧
    HasScope (DetectScopes NewScopeDetector o) .imHistory
        = HasScope (DetectScopes NewScopeDetector o) .imRead ∧
    HasScope (DetectScopes NewScopeDetector o) .mpimHistory
        = HasScope (DetectScopes NewScopeDetector o) .mpimRead := by
  rw [hasScope_channelsHistory, hasScope_channelsRead,
    hasScope_groupsHistory, hasScope_groupsRead, hasScope_imHistory,
    hasScope_imRead, hasScope_mpimHistory, hasScope_mpimRead]
  exact ⟨rfl, rfl, rfl, rfl⟩

/-- C3 counterexample: when every probe's remote call fails with the
cancellation error text `context canceled`, every probed permission is
recorded as available (`true`), not unavailable as the claim states:
cancellation text contains none of the permission-denial substrings. -/
theorem cancelled_probe_recorded_available :
    HasScope (DetectScopes NewScopeDetector cancelOutcomes) .channelsRead
        = true ∧
    HasScope (DetectScopes NewScopeDetector cancelOutcomes) .groupsRead
        = true ∧
    HasScope (DetectScopes NewScopeDetector cancelOutcomes) .imRead = true ∧
    HasScope (DetectScopes NewScopeDetector cancelOutcomes) .mpimRead
        = true ∧
    HasScope (DetectScopes NewScopeDetector cancelOutcomes) .usersRead
        = true ∧
    HasScope (DetectScopes NewScopeDetector cancelOutcomes) .searchRead
        = true := by
  decide

/-- C3 amended: a probe whose remote call returns the cancellation error
`context canceled` records its permission as available — cancellation is
not classified as a permission-denial signal — so the finalized
capability set still holds an entry for every probed permission. -/
theorem cancelled_probe_amended (o : ProbeOutcomes)
    (h1 : o.getConversationsPublic = some "context canceled")
    (h2 : o.getConversationsPrivate = some "context canceled")
    (h3 : o.getConversationsIM = some "context canceled")
    (h4 : o.getConversationsMPIM = some "context canceled")
    (h5 : o.getUsers = some "context canceled")
    (h6 : o.searchMessages = some "context canceled") :
    HasScope (DetectScopes NewScopeDetector o) .channelsRead = true ∧
    HasScope (DetectScopes NewScopeDetector o) .groupsRead = true ∧
    HasScope (DetectScopes NewScopeDetector o) .imRead = true ∧
    HasScope (DetectScopes NewScopeDetector o) .mpimRead = true ∧
    HasScope (DetectScopes NewScopeDetector o) .usersRead = true ∧
    HasScope (DetectScopes NewScopeDetector o) .searchRead = true ∧
    ((DetectScopes NewScopeDetector o).detected .channelsRead).isSome
        = true ∧
    ((DetectScopes NewScopeDetector o).detected .groupsRead).isSome
        = true ∧
    ((DetectScopes NewScopeDetector o).detected .imRead).isSome = true ∧
    ((DetectScopes NewScopeDetector o).detected .mpimRead).isSome = true ∧
    ((DetectScopes NewScopeDetector o).detected .usersRead).isSome
        = true ∧
    ((DetectScopes NewScopeDetector o).detected .searchRead).isSome
        = true := by
  obtain ⟨a, b, c, d, e, f⟩ := o
  simp only at h1 h2 h3 h4 h5 h6
  subst h1 h2 h3 h4 h5 h6
  decide

/-- C3 amended witness: the amended statement at the concrete all-cancelled
outcomes. -/
theorem cancelled_probe_amended_witness :
    HasScope (DetectScopes NewScopeDetector cancelOutcomes) .usersRead
        = true ∧
    ((DetectScopes NewScopeDetector cancelOutcomes).detected
        .searchRead).isSome = true :=
  ⟨(cancelled_probe_amended cancelOutcomes rfl rfl rfl rfl rfl rfl).2.2.2.2.1,
   (cancelled_probe_amended cancelOutcomes rfl rfl rfl rfl rfl
      rfl).2.2.2.2.2.2.2.2.2.2.2⟩

/-- C4: `AvailableChannelTypes` returns exactly the entity types whose
read scope is recorded available, in the fixed order public_channel,
private_channel, im, mpim — it equals the spec-side ordered table
filtered by `HasScope` — so a type whose read scope is unavailable never
appears. -/
theorem availableChannelTypes_exactly_readable (sd : ScopeDetector) :
    AvailableChannelTypes sd
      = (specChannelTypeOrder.filter (fun p => HasScope sd p.2)).map
          Prod.fst := by
  cases h1 : HasScope sd .channelsRead <;>
    cases h2 : HasScope sd .groupsRead <;>
    cases h3 : HasScope sd .imRead <;> cases h4 : HasScope sd .mpimRead <;>
    simp [AvailableChannelTypes, specChannelTypeOrder, h1, h2, h3, h4]

/-- C5: when the probes succeed for channels:read and groups:read and
fail with a permission denial for im:read, mpim:read, users:read and
search:read, the finalized capability set has the two channel read
scopes and their inferred history scopes true, every im/mpim/users/search
scope false, and `AvailableChannelTypes` is exactly
`[public_channel, private_channel]` in that order. -/
theorem detect_scenario_public_private (o : ProbeOutcomes)
    (h1 : testChannelsRead o = true) (h2 : testGroupsRead o = true)
    (h3 : testIMRead o = false) (h4 : testMPIMRead o = false)
    (h5 : testUsersRead o = false) (h6 : testSearchRead o = false) :
    HasScope (DetectScopes NewScopeDetector o) .channelsRead = true ∧
    HasScope (DetectScopes NewScopeDetector o) .groupsRead = true ∧
    HasScope (DetectScopes NewScopeDetector o) .channelsHistory = true ∧
    HasScope (DetectScopes NewScopeDetector o) .groupsHistory = true ∧
    HasScope (DetectScopes NewScopeDetector o) .imRead = false ∧
    HasScope (DetectScopes NewScopeDetector o) .imHistory = false ∧
    HasScope (DetectScopes NewScopeDetector o) .imWrite = false ∧
    HasScope (DetectScopes NewScopeDetector o) .mpimRead = false ∧
    HasScope (DetectScopes NewScopeDetector o) .mpimHistory = false ∧
    HasScope (DetectScopes NewScopeDetector o) .mpimWrite = false ∧
    HasScope (DetectScopes NewScopeDetector o) .usersRead = false ∧
    HasScope (DetectScopes NewScopeDetector o) .searchRead = false ∧
    AvailableChannelTypes (DetectScopes NewScopeDetector o)
      = ["public_channel", "private_channel"] := by
  simp [AvailableChannelTypes, hasScope_channelsRead, hasScope_groupsRead,
    hasScope_imRead, hasScope_mpimRead, hasScope_usersRead,
    hasScope_searchRead, hasScope_channelsHistory, hasScope_groupsHistory,
    hasScope_imHistory, hasScope_mpimHistory, hasScope_imWrite,
    hasScope_mpimWrite, h1, h2, h3, h4, h5, h6]

/-- C5 witness: the scenario at the concrete outcomes in which the two
channel-listing calls succeed and the other four calls fail with
`missing_scope`. -/
theorem detect_scenario_public_private_witness :
    AvailableChannelTypes (DetectScopes NewScopeDetector scenarioOutcomes)
      = ["public_channel", "private_channel"] :=
  (detect_scenario_public_private scenarioOutcomes (by decide) (by decide)
      (by decide) (by decide) (by decide)
      (by decide)).2.2.2.2.2.2.2.2.2.2.2.2

/-- C6: detection is a total function with no error result — the
embedding returns a `ScopeDetector`, not an `Except` — and for every
combination of probe outcomes it records a boolean entry for each of the
six directly-tested scopes. -/
theorem detect_always_records_all_probed (o : ProbeOutcomes) :
    ((DetectScopes NewScopeDetector o).detected .channelsRead).isSome
        = true ∧
    ((DetectScopes NewScopeDetector o).detected .groupsRead).isSome
        = true ∧
    ((DetectScopes NewScopeDetector o).detected .imRead).isSome = true ∧
    ((DetectScopes NewScopeDetector o).detected .mpimRead).isSome
        = true ∧
    ((DetectScopes NewScopeDetector o).detected .usersRead).isSome
        = true ∧
    ((DetectScopes NewScopeDetector o).detected .searchRead).isSome
        = true := by
  rw [detected_channelsRead, detected_groupsRead, detected_imRead,
    detected_mpimRead, detected_usersRead, detected_searchRead]
  exact ⟨rfl, rfl, rfl, rfl, rfl, rfl⟩

/-- C7: a `channel_id` starting with `#` or `@` that has no entry in the
`ChannelsInv` snapshot resolves to the `channel %q not found` error —
never to a zero-value identifier — and a `channel_id` without such a
prefix is passed through unchanged. -/
theorem resolve_prefixed_miss_errors_bare_unchanged
    (inv : String → Option String) (channels : String → String)
    (channelID : String)
    (hpre : (strHasPrefix channelID "#" ||
      strHasPrefix channelID "@") = true)
    (hmiss : inv channelID = none) :
    resolveChannelID inv channels channelID
        = Except.error ("channel \"" ++ channelID ++ "\" not found") ∧
    (∀ bareID, (strHasPrefix bareID "#" ||
        strHasPrefix bareID "@") = false →
      resolveChannelID inv channels bareID = Except.ok bareID) := by
  constructor
  · simp [resolveChannelID, hpre, hmiss]
  · intro bareID hb
    simp [resolveChannelID, hb]

/-- C7 witness: resolving `#unknown-channel` against an empty snapshot is
the not-found error, and the bare identifier `C123456` passes through. -/
theorem resolve_prefixed_miss_errors_bare_unchanged_witness :
    resolveChannelID (fun _ => none) (fun _ => "") "#unknown-channel"
        = Except.error ("channel \"" ++ "#unknown-channel" ++
            "\" not found") ∧
    resolveChannelID (fun _ => none) (fun _ => "") "C123456"
        = Except.ok "C123456" :=
  ⟨(resolve_prefixed_miss_errors_bare_unchanged (fun _ => none)
      (fun _ => "") "#unknown-channel" (by decide) rfl).1,
   (resolve_prefixed_miss_errors_bare_unchanged (fun _ => none)
      (fun _ => "") "#unknown-channel" (by decide) rfl).2 "C123456"
      (by decide)⟩

/-- C8: credential resolution always selects under the fixed priority
user token, then bot token, then session pair; the sources are named
configuration values, which carry no presentation order, so the
selection depends only on which sources are present. -/
theorem resolveCredential_priority (s : CredentialSources) :
    (∀ t, s.userToken = some t →
      resolveCredential s = Except.ok (Credential.user t)) ∧
    (∀ t, s.userToken = none → s.botToken = some t →
      resolveCredential s = Except.ok (Credential.bot t)) ∧
    (∀ c d, s.userToken = none → s.botToken = none →
      s.xoxcToken = some c → s.xoxdToken = some d →
      resolveCredential s = Except.ok (Credential.sessionPair c d)) := by
  refine ⟨fun t ht => ?_, fun t hu hb => ?_,
    fun c d hu hb hc hd => ?_⟩
  · simp [resolveCredential, ht]
  · simp [resolveCredential, hu, hb]
  · simp [resolveCredential, hu, hb, hc, hd]

/-- C8 witness: with every source present the user token wins; with the
user token absent the bot token wins; with both absent the complete
session pair is selected. -/
theorem resolveCredential_priority_witness :
    resolveCredential ⟨some "u", some "b", some "c", some "d"⟩
        = Except.ok (Credential.user "u") ∧
    resolveCredential ⟨none, some "b", some "c", some "d"⟩
        = Except.ok (Credential.bot "b") ∧
    resolveCredential ⟨none, none, some "c", some "d"⟩
        = Except.ok (Credential.sessionPair "c" "d") :=
  ⟨(resolveCredential_priority ⟨some "u", some "b", some "c",
      some "d"⟩).1 "u" rfl,
   (resolveCredential_priority ⟨none, some "b", some "c",
      some "d"⟩).2.1 "b" rfl rfl,
   (resolveCredential_priority ⟨none, none, some "c",
      some "d"⟩).2.2 "c" "d" rfl rfl rfl rfl⟩

/-- C9: `HasScope` is false, with no error path, for every scope the
detection phase never wrote: every scope on the fresh detector, and the
write scopes chat:write, im:write and mpim:write even after detection,
since they are neither probed nor inferred. -/
theorem hasScope_unwritten_false :
    (∀ s, HasScope NewScopeDetector s = false) ∧
    (∀ o : ProbeOutcomes,
      HasScope (DetectScopes NewScopeDetector o) .chatWrite = false ∧
      HasScope (DetectScopes NewScopeDetector o) .imWrite = false ∧
      HasScope (DetectScopes NewScopeDetector o) .mpimWrite = false) :=
  ⟨fun _ => rfl,
   fun o => ⟨hasScope_chatWrite o, hasScope_imWrite o,
     hasScope_mpimWrite o⟩⟩

/-- C10: after detection completes, `HasAnyHistoryScope` and
`HasAnyReadScope` agree: each history scope's value equals its paired
read scope's value, so the two four-way disjunctions are equal. -/
theorem hasAnyHistory_eq_hasAnyRead (o : ProbeOutcomes) :
    HasAnyHistoryScope (DetectScopes NewScopeDetector o)
      = HasAnyReadScope (DetectScopes NewScopeDetector o) := by
  rw [HasAnyHistoryScope, HasAnyReadScope, hasScope_channelsHistory,
    hasScope_groupsHistory, hasScope_imHistory, hasScope_mpimHistory,
    hasScope_channelsRead, hasScope_groupsRead, hasScope_imRead,
    hasScope_mpimRead]

end SlackMCP
